import Mathlib

/-!
Verification development for the MinHustomte Home Assistant add-on
(`run.py`).  The three cores are embedded shallowly:

* the sensor classifier `MinHustomteIntegration.get_electricity_sensors`,
  as a fold over the fetched state list;
* the tunnel dispatcher `TunnelClient._handle_request` /
  `TunnelClient._update_request`, as a pure function from a request and a
  snapshot of the local HTTP API to the single terminal update written;
* one iteration of the awaiting-command phase of
  `CameraStreamer._stream_loop`, as a function from the receive outcome to
  the loop action taken.

Numeric sensor values are modelled as rationals.  Python's `str.lower` is
modelled by ASCII case folding (every concrete input used below is
unaffected).
-/

namespace MinHustomte

/-- Python's `str.lower`, modelled as ASCII case folding character by
character (`String.toLower` restated over the character list so that it
evaluates by kernel reduction). -/
def lowerStr (s : String) : String :=
  ⟨s.data.map Char.toLower⟩

/-- Python's `needle in haystack` when `needle` leads `haystack`
(character-list version). -/
def leadsWith : List Char → List Char → Bool
  | [], _ => true
  | _ :: _, [] => false
  | c :: cs, d :: ds => c == d && leadsWith cs ds

/-- Python's substring containment `needle in haystack` on character
lists. -/
def inChars (needle : List Char) : List Char → Bool
  | [] => leadsWith needle []
  | l@(_ :: rest) => leadsWith needle l || inChars needle rest

/-- Python's `needle in haystack` on strings. -/
def inText (needle haystack : String) : Bool :=
  inChars needle.data haystack.data

/-- One raw entity state as read by `get_electricity_sensors`: the fields
`entity_id`, `attributes.friendly_name`, `attributes.device_class` and
`attributes.unit_of_measurement` (absent attributes are the source's `''`
defaults), and the state string modelled by its parse result: `none` when
the state is `'unavailable'`, `'unknown'`, `''` or not parseable as a
float, `some v` when `float(state)` yields `v`. -/
structure SensorState where
  entity_id : String
  friendly_name : String
  device_class : String
  unit_of_measurement : String
  value : Option ℚ
  deriving Repr, DecidableEq

/-- The `electricity_data` dict built by `get_electricity_sensors`;
every field starts as `None`. -/
structure ElectricityData where
  current_power : Option ℚ
  today_usage : Option ℚ
  month_usage : Option ℚ
  total_import : Option ℚ
  total_export : Option ℚ
  voltage : Option ℚ
  current_amps : Option ℚ
  power_factor : Option ℚ
  phase_l1_voltage : Option ℚ
  phase_l1_current : Option ℚ
  phase_l1_power : Option ℚ
  phase_l2_voltage : Option ℚ
  phase_l2_current : Option ℚ
  phase_l2_power : Option ℚ
  phase_l3_voltage : Option ℚ
  phase_l3_current : Option ℚ
  phase_l3_power : Option ℚ
  deriving Repr, DecidableEq

/-- The initial `electricity_data` dict (all values `None`). -/
def emptyData : ElectricityData :=
  ⟨none, none, none, none, none, none, none, none, none, none, none,
   none, none, none, none, none, none⟩

/-- `search_text = f"{entity_lower} {name_lower}"`. -/
def searchText (s : SensorState) : String :=
  lowerStr s.entity_id ++ " " ++ lowerStr s.friendly_name

/-- `is_power = device_class == 'power' or unit in ['W', 'kW'] or
'power' in entity_lower or 'effekt' in name_lower`. -/
def is_power (s : SensorState) : Bool :=
  s.device_class == "power" ||
  (s.unit_of_measurement == "W" || s.unit_of_measurement == "kW") ||
  inText "power" (lowerStr s.entity_id) ||
  inText "effekt" (lowerStr s.friendly_name)

/-- `value if unit != 'kW' else value * 1000`. -/
def powerVal (s : SensorState) (v : ℚ) : ℚ :=
  if s.unit_of_measurement ≠ "kW" then v else v * 1000

/-- The `current_power` assignment block (source lines 732-737). -/
def powerStep (d : ElectricityData) (s : SensorState) (v : ℚ) :
    ElectricityData :=
  if is_power s then
    if !inText "total" (searchText s) && d.current_power.isNone then
      { d with current_power := some (powerVal s v) }
    else d
  else d

/-- `is_energy = device_class == 'energy' or unit == 'kWh' or
'energy' in search_text or 'energi' in search_text`. -/
def is_energy (s : SensorState) : Bool :=
  s.device_class == "energy" || s.unit_of_measurement == "kWh" ||
  inText "energy" (searchText s) || inText "energi" (searchText s)

/-- The energy bucket routing block (source lines 739-749). -/
def energyStep (d : ElectricityData) (s : SensorState) (v : ℚ) :
    ElectricityData :=
  let st := searchText s
  if is_energy s then
    if inText "today" st || inText "daily" st || inText "idag" st ||
        inText "dygn" st then
      { d with today_usage := some v }
    else if inText "month" st || inText "månad" st then
      { d with month_usage := some v }
    else if inText "import" st || inText "consumption" st ||
        inText "förbrukning" st then
      { d with total_import := some v }
    else if inText "export" st then
      { d with total_export := some v }
    else d
  else d

/-- The `'l1' in search_text or 'phase_1' in search_text or
'fas_1' in search_text or 'fas 1' in search_text` test. -/
def phase1 (st : String) : Bool :=
  inText "l1" st || inText "phase_1" st || inText "fas_1" st ||
  inText "fas 1" st

/-- Phase-2 marker test, as `phase1` with `l2` / `_2`. -/
def phase2 (st : String) : Bool :=
  inText "l2" st || inText "phase_2" st || inText "fas_2" st ||
  inText "fas 2" st

/-- Phase-3 marker test, as `phase1` with `l3` / `_3`. -/
def phase3 (st : String) : Bool :=
  inText "l3" st || inText "phase_3" st || inText "fas_3" st ||
  inText "fas 3" st

/-- `is_voltage = device_class == 'voltage' or unit == 'V' or
'voltage' in search_text or 'spänning' in search_text`. -/
def is_voltage (s : SensorState) : Bool :=
  s.device_class == "voltage" || s.unit_of_measurement == "V" ||
  inText "voltage" (searchText s) || inText "spänning" (searchText s)

/-- The voltage routing block (source lines 751-761). -/
def voltageStep (d : ElectricityData) (s : SensorState) (v : ℚ) :
    ElectricityData :=
  let st := searchText s
  if is_voltage s then
    if phase1 st then { d with phase_l1_voltage := some v }
    else if phase2 st then { d with phase_l2_voltage := some v }
    else if phase3 st then { d with phase_l3_voltage := some v }
    else if d.voltage.isNone then { d with voltage := some v }
    else d
  else d

/-- `is_current = device_class == 'current' or unit == 'A' or
'current' in search_text or 'ampere' in search_text or
'ström' in search_text`. -/
def is_current (s : SensorState) : Bool :=
  s.device_class == "current" || s.unit_of_measurement == "A" ||
  inText "current" (searchText s) || inText "ampere" (searchText s) ||
  inText "ström" (searchText s)

/-- The current routing block (source lines 763-773). -/
def currentStep (d : ElectricityData) (s : SensorState) (v : ℚ) :
    ElectricityData :=
  let st := searchText s
  if is_current s then
    if phase1 st then { d with phase_l1_current := some v }
    else if phase2 st then { d with phase_l2_current := some v }
    else if phase3 st then { d with phase_l3_current := some v }
    else if d.current_amps.isNone then { d with current_amps := some v }
    else d
  else d

/-- The phase power routing block (source lines 775-785). -/
def phasePowerStep (d : ElectricityData) (s : SensorState) (v : ℚ) :
    ElectricityData :=
  let st := searchText s
  if is_power s then
    if phase1 st then { d with phase_l1_power := some (powerVal s v) }
    else if phase2 st then { d with phase_l2_power := some (powerVal s v) }
    else if phase3 st then { d with phase_l3_power := some (powerVal s v) }
    else d
  else d

/-- The power-factor assignment (source lines 787-788). -/
def pfStep (d : ElectricityData) (s : SensorState) (v : ℚ) :
    ElectricityData :=
  if inText "power_factor" (searchText s) ||
      s.device_class == "power_factor" then
    { d with power_factor := some v }
  else d

/-- One iteration of the classification loop: skip the state when its
value did not parse, otherwise run the assignment blocks in source
order. -/
def processState (d : ElectricityData) (s : SensorState) :
    ElectricityData :=
  match s.value with
  | none => d
  | some v =>
      pfStep (phasePowerStep (currentStep (voltageStep
        (energyStep (powerStep d s v) s v) s v) s v) s v) s v

/-- `MinHustomteIntegration.get_electricity_sensors`, restricted to its
classification loop: fold the per-state processing over the fetched
state list starting from the all-`None` dict. -/
def get_electricity_sensors (states : List SensorState) :
    ElectricityData :=
  states.foldl processState emptyData

/-! ### Preservation lemmas for the classifier steps -/

theorem energyStep_cp (d : ElectricityData) (s : SensorState) (v : ℚ) :
    (energyStep d s v).current_power = d.current_power := by
  simp only [energyStep]
  repeat' split
  all_goals rfl

theorem voltageStep_cp (d : ElectricityData) (s : SensorState) (v : ℚ) :
    (voltageStep d s v).current_power = d.current_power := by
  simp only [voltageStep]
  repeat' split
  all_goals rfl

theorem currentStep_cp (d : ElectricityData) (s : SensorState) (v : ℚ) :
    (currentStep d s v).current_power = d.current_power := by
  simp only [currentStep]
  repeat' split
  all_goals rfl

theorem phasePowerStep_cp (d : ElectricityData) (s : SensorState) (v : ℚ) :
    (phasePowerStep d s v).current_power = d.current_power := by
  simp only [phasePowerStep]
  repeat' split
  all_goals rfl

theorem pfStep_cp (d : ElectricityData) (s : SensorState) (v : ℚ) :
    (pfStep d s v).current_power = d.current_power := by
  simp only [pfStep]
  repeat' split
  all_goals rfl

/-- Only the `current_power` block of the loop body can change
`current_power`. -/
theorem processState_cp (d : ElectricityData) (s : SensorState) (v : ℚ)
    (hv : s.value = some v) :
    (processState d s).current_power = (powerStep d s v).current_power := by
  simp only [processState, hv]
  rw [pfStep_cp, phasePowerStep_cp, currentStep_cp, voltageStep_cp,
    energyStep_cp]

/-- A reading whose search text contains `"total"` never assigns
`current_power`. -/
theorem powerStep_total (d : ElectricityData) (s : SensorState) (v : ℚ)
    (ht : inText "total" (searchText s) = true) :
    (powerStep d s v).current_power = d.current_power := by
  simp only [powerStep, ht]
  repeat' split
  all_goals first | rfl | simp_all

/-- A non-total power reading assigns `current_power` when it is still
unset. -/
theorem powerStep_sets (d : ElectricityData) (s : SensorState) (v : ℚ)
    (hp : is_power s = true) (ht : inText "total" (searchText s) = false)
    (hd : d.current_power = none) :
    (powerStep d s v).current_power = some (powerVal s v) := by
  simp [powerStep, hp, ht, hd]

theorem powerStep_ti (d : ElectricityData) (s : SensorState) (v : ℚ) :
    (powerStep d s v).total_import = d.total_import := by
  simp only [powerStep]
  repeat' split
  all_goals rfl

theorem voltageStep_ti (d : ElectricityData) (s : SensorState) (v : ℚ) :
    (voltageStep d s v).total_import = d.total_import := by
  simp only [voltageStep]
  repeat' split
  all_goals rfl

theorem currentStep_ti (d : ElectricityData) (s : SensorState) (v : ℚ) :
    (currentStep d s v).total_import = d.total_import := by
  simp only [currentStep]
  repeat' split
  all_goals rfl

theorem phasePowerStep_ti (d : ElectricityData) (s : SensorState) (v : ℚ) :
    (phasePowerStep d s v).total_import = d.total_import := by
  simp only [phasePowerStep]
  repeat' split
  all_goals rfl

theorem pfStep_ti (d : ElectricityData) (s : SensorState) (v : ℚ) :
    (pfStep d s v).total_import = d.total_import := by
  simp only [pfStep]
  repeat' split
  all_goals rfl

/-- Without the import/consumption keywords, the energy block never
touches `total_import`. -/
theorem energyStep_ti (d : ElectricityData) (s : SensorState) (v : ℚ)
    (h1 : inText "import" (searchText s) = false)
    (h2 : inText "consumption" (searchText s) = false)
    (h3 : inText "förbrukning" (searchText s) = false) :
    (energyStep d s v).total_import = d.total_import := by
  simp only [energyStep, h1, h2, h3]
  repeat' split
  all_goals first | rfl | simp_all

/-- Without the import/consumption keywords, one loop iteration leaves
`total_import` unchanged. -/
theorem processState_ti (d : ElectricityData) (s : SensorState)
    (h1 : inText "import" (searchText s) = false)
    (h2 : inText "consumption" (searchText s) = false)
    (h3 : inText "förbrukning" (searchText s) = false) :
    (processState d s).total_import = d.total_import := by
  match hv : s.value with
  | none => simp only [processState, hv]
  | some v =>
      simp only [processState, hv]
      rw [pfStep_ti, phasePowerStep_ti, currentStep_ti, voltageStep_ti,
        energyStep_ti _ s v h1 h2 h3, powerStep_ti]

/-- Without the import/consumption keywords anywhere in the input,
the whole fold leaves `total_import` unchanged. -/
theorem foldl_ti (states : List SensorState) (d : ElectricityData)
    (h : ∀ s ∈ states, inText "import" (searchText s) = false ∧
      inText "consumption" (searchText s) = false ∧
      inText "förbrukning" (searchText s) = false) :
    (states.foldl processState d).total_import = d.total_import := by
  induction states generalizing d with
  | nil => rfl
  | cons a as ih =>
      have ha := h a (List.mem_cons_self a as)
      rw [List.foldl_cons,
        ih (processState d a) (fun s hs => h s (List.mem_cons_of_mem a hs)),
        processState_ti d a ha.1 ha.2.1 ha.2.2]

/-! ### `sync_electricity` -/

/-- The cleaned payload
`{k: v for k, v in electricity_data.items() if v is not None}`,
in dict insertion order. -/
def clean_data (d : ElectricityData) : List (String × ℚ) :=
  ([("current_power", d.current_power), ("today_usage", d.today_usage),
    ("month_usage", d.month_usage), ("total_import", d.total_import),
    ("total_export", d.total_export), ("voltage", d.voltage),
    ("current_amps", d.current_amps), ("power_factor", d.power_factor),
    ("phase_l1_voltage", d.phase_l1_voltage),
    ("phase_l1_current", d.phase_l1_current),
    ("phase_l1_power", d.phase_l1_power),
    ("phase_l2_voltage", d.phase_l2_voltage),
    ("phase_l2_current", d.phase_l2_current),
    ("phase_l2_power", d.phase_l2_power),
    ("phase_l3_voltage", d.phase_l3_voltage),
    ("phase_l3_current", d.phase_l3_current),
    ("phase_l3_power", d.phase_l3_power)]).filterMap
    (fun p => p.2.map (fun v => (p.1, v)))

/-- Python truthiness of `electricity_data.get('current_power')`:
`None` and the float `0.0` are both falsy. -/
def current_power_truthy (d : ElectricityData) : Bool :=
  match d.current_power with
  | none => false
  | some v => !(v == 0)

/-- What `sync_electricity` uploads: `none` when nothing was POSTed. -/
structure SyncOutcome where
  uploaded : Option (List (String × ℚ))
  success : Bool
  deriving Repr, DecidableEq

/-- `MinHustomteIntegration.sync_electricity` over an already classified
record: skip when not authenticated; skip with failure when
`not electricity_data.get('current_power')`; otherwise POST the cleaned
dict, succeeding iff the portal answers 200 (`postOk`). -/
def sync_electricity (authenticated : Bool) (d : ElectricityData)
    (postOk : Bool) : SyncOutcome :=
  if !authenticated then ⟨none, false⟩
  else if !current_power_truthy d then ⟨none, false⟩
  else ⟨some (clean_data d), postOk⟩

/-! ### Tunnel dispatcher -/

/-- Python `str()` of an optional string as interpolated into f-strings:
`None` prints as `"None"`. -/
def pyStr : Option String → String
  | none => "None"
  | some s => s

/-- Outcome of one local HTTP call: a response with its status code and
parsed body, or a raised exception with its message. -/
inductive HttpResult (α : Type) where
  | ok (code : ℕ) (body : α)
  | exn (msg : String)

/-- A minimal JSON value, for payloads the dispatcher passes through
verbatim. -/
inductive JVal where
  | null
  | bool (b : Bool)
  | num (q : ℚ)
  | str (s : String)
  | arr (xs : List JVal)
  | obj (fields : List (String × JVal))

/-- One entry of the local `GET /states` response as read by
`_list_entities` (absent fields modelled by the `.get` default `''` /
`None` printed as empty). -/
structure HAEntityState where
  entity_id : String
  state : String
  friendly_name : String
  device_class : String
  unit_of_measurement : String
  deriving Repr, DecidableEq

/-- The entity dict `_list_entities` builds per state, with
`domain = entity_id.split('.')[0]`. -/
structure EntityInfo where
  entity_id : String
  state : String
  friendly_name : String
  device_class : String
  unit_of_measurement : String
  domain : String
  deriving Repr, DecidableEq

/-- The `filter` object of a `list_entities` request. -/
structure FilterOpts where
  domain : Option String
  device_class : Option String
  deriving Repr, DecidableEq

/-- Snapshot of the local Home Assistant API during one dispatch:
`GET /states`, `GET /states/{id}` and
`POST /services/{domain}/{service}`. -/
structure LocalApi where
  statesResp : HttpResult (List HAEntityState)
  stateResp : String → HttpResult JVal
  serviceResp : String → String → JVal → HttpResult JVal

/-- A tunnel request: its `id` and the `request` payload fields, each
read with `request_data.get(...)` (so each may be absent). -/
structure TunnelRequest where
  id : String
  action : Option String
  entity_id : Option String
  domain : Option String
  service : Option String
  service_data : Option JVal
  filter : Option FilterOpts

/-- A result payload as built by the five operation handlers; the
`{'error': ...}` dicts they return on failure are `errPayload`. -/
inductive Payload where
  | pong (timestamp : String)
  | entities (es : List EntityInfo) (count : ℕ)
  | jval (v : JVal)
  | states (body : List HAEntityState)
  | service (result : JVal)
  | errPayload (msg : String)

/-- The terminal update `_update_request` writes back: the `status`
column plus the optional `response` and `error` columns. -/
structure RequestUpdate where
  status : String
  response : Option Payload
  errMsg : Option String

/-- The per-state entity dict of `_list_entities`. -/
def entity_of_state (st : HAEntityState) : EntityInfo :=
  { entity_id := st.entity_id, state := st.state,
    friendly_name := st.friendly_name, device_class := st.device_class,
    unit_of_measurement := st.unit_of_measurement,
    domain := (st.entity_id.splitOn ".").headD "" }

/-- The filter test of `_list_entities`: an entity is skipped when a
filter key is truthy (a non-empty string) and differs from the
entity's value. -/
def keepEntity (f : Option FilterOpts) (e : EntityInfo) : Bool :=
  match f with
  | none => true
  | some fo =>
      (match fo.domain with
       | none => true
       | some d => d == "" || e.domain == d) &&
      (match fo.device_class with
       | none => true
       | some dc => dc == "" || e.device_class == dc)

/-- `TunnelClient._list_entities`. -/
def list_entities (api : LocalApi) (f : Option FilterOpts) : Payload :=
  match api.statesResp with
  | .exn m => .errPayload m
  | .ok code states =>
      if code ≠ 200 then .errPayload ("HA API error: " ++ toString code)
      else
        let es := (states.map entity_of_state).filter (keepEntity f)
        .entities es es.length

/-- `TunnelClient._get_state`. -/
def get_state (api : LocalApi) (eid : Option String) : Payload :=
  match api.stateResp (pyStr eid) with
  | .exn m => .errPayload m
  | .ok code body =>
      if code = 200 then .jval body
      else .errPayload ("Entity not found: " ++ pyStr eid)

/-- `TunnelClient._get_all_states`. -/
def get_all_states (api : LocalApi) : Payload :=
  match api.statesResp with
  | .exn m => .errPayload m
  | .ok code body =>
      if code = 200 then .states body
      else .errPayload ("HA API error: " ++ toString code)

/-- `TunnelClient._call_service`. -/
def call_service (api : LocalApi) (domain service : Option String)
    (sdata : JVal) : Payload :=
  match api.serviceResp (pyStr domain) (pyStr service) sdata with
  | .exn m => .errPayload m
  | .ok code body =>
      if code = 200 then .service body
      else .errPayload ("Service call failed: " ++ toString code)

/-- `TunnelClient._update_request`'s update dict: status `completed`
exactly when the error slot is `None`, with `response` / `error` set
from the non-`None` slots. -/
def update_request (result : Option Payload) (error : Option String) :
    RequestUpdate :=
  { status := if error = none then "completed" else "error",
    response := result, errMsg := error }

/-- The closed set of supported actions in `_handle_request`. -/
def supportedActions : List (Option String) :=
  [some "ping", some "list_entities", some "get_state",
   some "get_states", some "call_service"]

/-- `TunnelClient._handle_request`: dispatch on `action` and write the
single terminal update; `now` stands for
`datetime.now().isoformat()`. -/
def handle_request (api : LocalApi) (now : String) (req : TunnelRequest) :
    RequestUpdate :=
  if req.action = some "ping" then
    update_request (some (.pong now)) none
  else if req.action = some "list_entities" then
    update_request (some (list_entities api req.filter)) none
  else if req.action = some "get_state" then
    update_request (some (get_state api req.entity_id)) none
  else if req.action = some "get_states" then
    update_request (some (get_all_states api)) none
  else if req.action = some "call_service" then
    update_request
      (some (call_service api req.domain req.service
        (req.service_data.getD (JVal.obj [])))) none
  else
    update_request none (some ("Unknown action: " ++ pyStr req.action))

/-- The per-batch loop of `_process_pending_requests`: every request of
the poll batch gets exactly one update, in batch order. -/
def process_pending_requests (api : LocalApi) (now : String)
    (reqs : List TunnelRequest) : List RequestUpdate :=
  reqs.map (handle_request api now)

/-! ### Camera stream loop, awaiting-command phase -/

/-- What `json.loads` plus `data.get('type')` yield for a received
message: a JSON object (with its `type` field, absent as `none`), valid
JSON that is not an object (`.get` raises `AttributeError`), or text
that is not JSON (`json.loads` raises). -/
inductive RawMsg where
  | objMsg (typ : Option String)
  | nonObj
  | notJson
  deriving Repr, DecidableEq

/-- Outcome of `self.ws.recv()` in the awaiting-command phase. -/
inductive RecvOutcome where
  | timeoutRaised
  | recvError (msg : String)
  | gotMsg (m : RawMsg)
  deriving Repr, DecidableEq

/-- What one awaiting-command iteration of `_stream_loop` (source lines
379-393) does after the receive: keep awaiting on the live connection,
enter `_send_frames`, or clear `self.ws` and sleep the reconnect
delay. -/
inductive LoopAction where
  | keepAwaiting
  | enterStreaming
  | dropConnection
  deriving Repr, DecidableEq

/-- One awaiting-command iteration of `CameraStreamer._stream_loop` with
the connection live: the Boolean is whether `self.ws` is still set
afterwards.  A timeout continues the loop; a start-stream object enters
`_send_frames`; any other JSON object falls through and keeps awaiting;
a message that raises in `json.loads` or `data.get` hits the generic
`except`, which clears the socket and sleeps the reconnect delay. -/
def awaitCommandStep (r : RecvOutcome) : Bool × LoopAction :=
  match r with
  | .timeoutRaised => (true, .keepAwaiting)
  | .recvError _ => (false, .dropConnection)
  | .gotMsg (.objMsg t) =>
      if t = some "start_stream" then (true, .enterStreaming)
      else (true, .keepAwaiting)
  | .gotMsg .nonObj => (false, .dropConnection)
  | .gotMsg .notJson => (false, .dropConnection)

end MinHustomte

namespace MinHustomte

/-! ### Claim C1 -/

/-- `sensor.power_total = 2500 W`, `device_class = power`. -/
def c1_total : SensorState := ⟨"sensor.power_total", "", "power", "W", some 2500⟩

/-- `sensor.power_l1 = 800 W`. -/
def c1_l1 : SensorState := ⟨"sensor.power_l1", "", "", "W", some 800⟩

/-- C1 counterexample: on the two-reading input of the claim the primary
current-power field is NOT left unset — the `sensor.power_l1` reading,
which lacks `"total"` in its search text, wins it. -/
theorem c1_counterexample :
    (get_electricity_sensors [c1_total, c1_l1]).current_power ≠ none := by
  decide

/-- C1 (amended): with `sensor.power_total = 2500 W (device_class power)`
and `sensor.power_l1 = 800 W`, the classifier sets `phase_l1_power = 800`
and sets `current_power = 800` from the non-total `power_l1` reading; the
total-tagged 2500 never reaches `current_power`. -/
theorem c1_l1_wins_primary :
    (get_electricity_sensors [c1_total, c1_l1]).phase_l1_power = some 800 ∧
    (get_electricity_sensors [c1_total, c1_l1]).current_power = some 800 ∧
    (get_electricity_sensors [c1_total, c1_l1]).current_power ≠ some 2500 := by
  decide

/-! ### Claim C3 -/

/-- An energy reading reported in Wh: `sensor.today_energy = 1500 Wh`,
`device_class = energy`. -/
def c3_wh : SensorState := ⟨"sensor.today_energy", "", "energy", "Wh", some 1500⟩

/-- C3 counterexample: a qualifying energy reading with unit `"Wh"` and
value `1500` sets its energy field to `1500`, not to `1.5` — the code
never divides by 1000. -/
theorem c3_counterexample :
    (get_electricity_sensors [c3_wh]).today_usage = some 1500 ∧
    (get_electricity_sensors [c3_wh]).today_usage ≠ some (3 / 2) := by
  have h : (get_electricity_sensors [c3_wh]).today_usage = some 1500 := by
    decide
  refine ⟨h, ?_⟩
  rw [h]
  intro hc
  have h15 : (1500 : ℚ) = 3 / 2 := Option.some.inj hc
  norm_num at h15

/-- C3 (amended): for every qualifying energy reading, whatever its unit
(including `"Wh"`), whichever energy bucket it wins receives the raw
value unchanged; no unit conversion is applied. -/
theorem c3_energy_value_raw (d : ElectricityData) (s : SensorState) (v : ℚ)
    (hu : s.unit_of_measurement = "Wh") :
    ((energyStep d s v).today_usage ≠ d.today_usage →
        (energyStep d s v).today_usage = some v) ∧
    ((energyStep d s v).month_usage ≠ d.month_usage →
        (energyStep d s v).month_usage = some v) ∧
    ((energyStep d s v).total_import ≠ d.total_import →
        (energyStep d s v).total_import = some v) ∧
    ((energyStep d s v).total_export ≠ d.total_export →
        (energyStep d s v).total_export = some v) := by
  have h1 : (energyStep d s v).today_usage = d.today_usage ∨
      (energyStep d s v).today_usage = some v := by
    simp only [energyStep]
    repeat' split
    all_goals simp
  have h2 : (energyStep d s v).month_usage = d.month_usage ∨
      (energyStep d s v).month_usage = some v := by
    simp only [energyStep]
    repeat' split
    all_goals simp
  have h3 : (energyStep d s v).total_import = d.total_import ∨
      (energyStep d s v).total_import = some v := by
    simp only [energyStep]
    repeat' split
    all_goals simp
  have h4 : (energyStep d s v).total_export = d.total_export ∨
      (energyStep d s v).total_export = some v := by
    simp only [energyStep]
    repeat' split
    all_goals simp
  exact ⟨fun h => h1.resolve_left h, fun h => h2.resolve_left h,
    fun h => h3.resolve_left h, fun h => h4.resolve_left h⟩

/-- C3 witness: the `1500 Wh` reading wins the today bucket and stores
1500 there. -/
theorem c3_energy_value_raw_witness :
    (energyStep emptyData c3_wh 1500).today_usage = some 1500 :=
  (c3_energy_value_raw emptyData c3_wh 1500 rfl).1 (by decide)

/-! ### Claim C4 -/

/-- An energy reading matching no today/month/import/export keyword:
`sensor.main_energy = 42 kWh`, `device_class = energy`. -/
def c4_energy : SensorState := ⟨"sensor.main_energy", "", "energy", "kWh", some 42⟩

/-- C4 counterexample: a lone qualifying energy reading that matches none
of the keyword buckets is dropped, not stored as the total-import
fallback — `total_import` stays unset. -/
theorem c4_counterexample :
    is_energy c4_energy = true ∧
    inText "today" (searchText c4_energy) = false ∧
    inText "daily" (searchText c4_energy) = false ∧
    inText "idag" (searchText c4_energy) = false ∧
    inText "dygn" (searchText c4_energy) = false ∧
    inText "month" (searchText c4_energy) = false ∧
    inText "månad" (searchText c4_energy) = false ∧
    inText "import" (searchText c4_energy) = false ∧
    inText "consumption" (searchText c4_energy) = false ∧
    inText "förbrukning" (searchText c4_energy) = false ∧
    inText "export" (searchText c4_energy) = false ∧
    (get_electricity_sensors [c4_energy]).total_import = none := by
  decide

/-- C4 (amended): there is no unmatched-energy fallback — when no reading
in the input matches the import/consumption keywords, `total_import` is
left unset. -/
theorem c4_no_import_no_fallback (states : List SensorState)
    (h : ∀ s ∈ states, inText "import" (searchText s) = false ∧
      inText "consumption" (searchText s) = false ∧
      inText "förbrukning" (searchText s) = false) :
    (get_electricity_sensors states).total_import = none := by
  unfold get_electricity_sensors
  rw [foldl_ti states emptyData h]
  rfl

/-- C4 witness: the keyword-free energy reading leaves `total_import`
unset. -/
theorem c4_no_import_no_fallback_witness :
    (get_electricity_sensors [c4_energy]).total_import = none :=
  c4_no_import_no_fallback [c4_energy] (by decide)

/-! ### Claim C5 -/

/-- C5: of exactly two power-qualifying readings — one whose search text
contains both `"total"` and `"power"`, one plain (no `"total"`, no phase
tags) — the plain one is chosen for `current_power`, in either input
order. -/
theorem c5_plain_power_wins (a b : SensorState) (va vb : ℚ)
    (hva : a.value = some va) (hvb : b.value = some vb)
    (hpa : is_power a = true) (hpb : is_power b = true)
    (hta : inText "total" (searchText a) = true)
    (hpowa : inText "power" (searchText a) = true)
    (htb : inText "total" (searchText b) = false)
    (hb1 : phase1 (searchText b) = false)
    (hb2 : phase2 (searchText b) = false)
    (hb3 : phase3 (searchText b) = false) :
    (get_electricity_sensors [a, b]).current_power = some (powerVal b vb) ∧
    (get_electricity_sensors [b, a]).current_power = some (powerVal b vb) := by
  have hstep_a : ∀ d : ElectricityData,
      (processState d a).current_power = d.current_power := by
    intro d
    rw [processState_cp d a va hva, powerStep_total d a va hta]
  have hstep_b : ∀ d : ElectricityData, d.current_power = none →
      (processState d b).current_power = some (powerVal b vb) := by
    intro d hd
    rw [processState_cp d b vb hvb, powerStep_sets d b vb hpb htb hd]
  constructor
  · show (processState (processState emptyData a) b).current_power = _
    exact hstep_b _ (by rw [hstep_a emptyData]; rfl)
  · show (processState (processState emptyData b) a).current_power = _
    rw [hstep_a (processState emptyData b)]
    exact hstep_b emptyData rfl

/-- Total-tagged power reading for the C5 witness. -/
def c5_total : SensorState := ⟨"sensor.total_power", "", "power", "W", some 2500⟩

/-- Plain power reading for the C5 witness. -/
def c5_plain : SensorState := ⟨"sensor.house_power", "", "power", "W", some 600⟩

/-- C5 witness: concrete total-tagged and plain readings, both orders. -/
theorem c5_plain_power_wins_witness :
    (get_electricity_sensors [c5_total, c5_plain]).current_power =
      some (powerVal c5_plain 600) ∧
    (get_electricity_sensors [c5_plain, c5_total]).current_power =
      some (powerVal c5_plain 600) :=
  c5_plain_power_wins c5_total c5_plain 2500 600 rfl rfl (by decide)
    (by decide) (by decide) (by decide) (by decide) (by decide) (by decide)
    (by decide)

/-! ### Claim C6 -/

/-- C6: any power field a `"kW"` reading wins holds the raw value times
1000 (both the primary `current_power` slot and the three phase-power
slots). -/
theorem c6_kw_scaled (d : ElectricityData) (s : SensorState) (v : ℚ)
    (hu : s.unit_of_measurement = "kW") :
    ((powerStep d s v).current_power ≠ d.current_power →
        (powerStep d s v).current_power = some (v * 1000)) ∧
    ((phasePowerStep d s v).phase_l1_power ≠ d.phase_l1_power →
        (phasePowerStep d s v).phase_l1_power = some (v * 1000)) ∧
    ((phasePowerStep d s v).phase_l2_power ≠ d.phase_l2_power →
        (phasePowerStep d s v).phase_l2_power = some (v * 1000)) ∧
    ((phasePowerStep d s v).phase_l3_power ≠ d.phase_l3_power →
        (phasePowerStep d s v).phase_l3_power = some (v * 1000)) := by
  have hpv : powerVal s v = v * 1000 := by
    simp [powerVal, hu]
  have h1 : (powerStep d s v).current_power = d.current_power ∨
      (powerStep d s v).current_power = some (powerVal s v) := by
    simp only [powerStep]
    repeat' split
    all_goals simp
  have h2 : (phasePowerStep d s v).phase_l1_power = d.phase_l1_power ∨
      (phasePowerStep d s v).phase_l1_power = some (powerVal s v) := by
    simp only [phasePowerStep]
    repeat' split
    all_goals simp
  have h3 : (phasePowerStep d s v).phase_l2_power = d.phase_l2_power ∨
      (phasePowerStep d s v).phase_l2_power = some (powerVal s v) := by
    simp only [phasePowerStep]
    repeat' split
    all_goals simp
  have h4 : (phasePowerStep d s v).phase_l3_power = d.phase_l3_power ∨
      (phasePowerStep d s v).phase_l3_power = some (powerVal s v) := by
    simp only [phasePowerStep]
    repeat' split
    all_goals simp
  rw [hpv] at h1 h2 h3 h4
  exact ⟨fun h => h1.resolve_left h, fun h => h2.resolve_left h,
    fun h => h3.resolve_left h, fun h => h4.resolve_left h⟩

/-- A phase-1-tagged power reading assigns `phase_l1_power`. -/
theorem phasePowerStep_l1_sets (d : ElectricityData) (s : SensorState)
    (v : ℚ) (hp : is_power s = true) (h1 : phase1 (searchText s) = true) :
    (phasePowerStep d s v).phase_l1_power = some (powerVal s v) := by
  simp [phasePowerStep, hp, h1]

/-- A `2.5 kW` phase-1 power reading for the C6 witness. -/
def c6_kw : SensorState := ⟨"sensor.power_l1", "", "power", "kW", some (5 / 2)⟩

/-- C6 witness: the `2.5 kW` reading stores `2.5 * 1000` in the power
fields it wins. -/
theorem c6_kw_scaled_witness :
    (powerStep emptyData c6_kw (5 / 2)).current_power =
      some (5 / 2 * 1000) ∧
    (phasePowerStep emptyData c6_kw (5 / 2)).phase_l1_power =
      some (5 / 2 * 1000) :=
  ⟨(c6_kw_scaled emptyData c6_kw (5 / 2) rfl).1 (by
      rw [powerStep_sets emptyData c6_kw (5 / 2) (by decide) (by decide) rfl]
      exact Option.some_ne_none _),
   (c6_kw_scaled emptyData c6_kw (5 / 2) rfl).2.1 (by
      rw [phasePowerStep_l1_sets emptyData c6_kw (5 / 2) (by decide)
        (by decide)]
      exact Option.some_ne_none _)⟩

/-! ### Claim C8 -/

/-- A lone `sensor.power_factor` reading (no `"total"`, no phase tag). -/
def c8_pf : SensorState := ⟨"sensor.power_factor", "", "", "", some 1⟩

/-- C8: a single reading whose entity id contains `power_factor` (and no
`total` or phase tag) populates both the power-factor field and the
primary current-power field with the same value, because `"power"` in
its id also qualifies it as a power reading. -/
theorem c8_power_factor_double_count :
    (get_electricity_sensors [c8_pf]).power_factor = some 1 ∧
    (get_electricity_sensors [c8_pf]).current_power = some 1 := by
  decide

/-! ### Claim C9 -/

/-- C9: a genuine zero-watt `current_power` makes `sync_electricity`
behave exactly as if no electricity data had been found — nothing is
uploaded and the sync reports failure — because `not
electricity_data.get('current_power')` conflates `0.0` with `None`. -/
theorem c9_zero_power_conflated (auth postOk : Bool) (d : ElectricityData)
    (h : d.current_power = some 0) :
    sync_electricity auth d postOk =
      sync_electricity auth { d with current_power := none } postOk ∧
    (sync_electricity auth d postOk).uploaded = none ∧
    (sync_electricity auth d postOk).success = false := by
  have ht : current_power_truthy d = false := by
    simp [current_power_truthy, h]
  have ht2 : current_power_truthy { d with current_power := none } = false :=
    rfl
  cases auth <;> simp [sync_electricity, ht, ht2]

/-- C9 witness: an authenticated sync of a record whose only datum is a
zero-watt reading uploads nothing and fails. -/
theorem c9_zero_power_conflated_witness :
    sync_electricity true { emptyData with current_power := some 0 } true =
      sync_electricity true
        { { emptyData with current_power := some 0 } with
          current_power := none } true ∧
    (sync_electricity true { emptyData with current_power := some 0 }
        true).uploaded = none ∧
    (sync_electricity true { emptyData with current_power := some 0 }
        true).success = false :=
  c9_zero_power_conflated true true _ rfl

/-! ### Claim C2 -/

/-- C2: a request whose action is outside the supported set gets status
`error` with a message naming the unknown action, never `pending`; and
each request of a poll batch yields exactly its own single update. -/
theorem c2_unknown_action_error (api : LocalApi) (now : String)
    (req : TunnelRequest) (h : req.action ∉ supportedActions) :
    (handle_request api now req).status = "error" ∧
    (handle_request api now req).errMsg =
      some ("Unknown action: " ++ pyStr req.action) ∧
    (handle_request api now req).status ≠ "pending" ∧
    ∀ reqs : List TunnelRequest,
      process_pending_requests api now reqs =
        reqs.map (handle_request api now) := by
  have h1 : ¬req.action = some "ping" := by
    intro he; exact h (by rw [he]; simp [supportedActions])
  have h2 : ¬req.action = some "list_entities" := by
    intro he; exact h (by rw [he]; simp [supportedActions])
  have h3 : ¬req.action = some "get_state" := by
    intro he; exact h (by rw [he]; simp [supportedActions])
  have h4 : ¬req.action = some "get_states" := by
    intro he; exact h (by rw [he]; simp [supportedActions])
  have h5 : ¬req.action = some "call_service" := by
    intro he; exact h (by rw [he]; simp [supportedActions])
  unfold handle_request
  rw [if_neg h1, if_neg h2, if_neg h3, if_neg h4, if_neg h5]
  refine ⟨rfl, rfl, ?_, fun reqs => rfl⟩
  show ("error" : String) ≠ "pending"
  decide

/-- A local API snapshot that answers every call with 200. -/
def c2_api : LocalApi :=
  ⟨.ok 200 [], fun _ => .ok 200 .null, fun _ _ _ => .ok 200 .null⟩

/-- A request carrying the unsupported action `reboot`. -/
def c2_req : TunnelRequest :=
  ⟨"r1", some "reboot", none, none, none, none, none⟩

/-- C2 witness: the `reboot` request is written as `error` naming the
unknown action. -/
theorem c2_unknown_action_error_witness :
    (handle_request c2_api "t0" c2_req).status = "error" ∧
    (handle_request c2_api "t0" c2_req).errMsg =
      some ("Unknown action: " ++ pyStr c2_req.action) ∧
    (handle_request c2_api "t0" c2_req).status ≠ "pending" ∧
    ∀ reqs : List TunnelRequest,
      process_pending_requests c2_api "t0" reqs =
        reqs.map (handle_request c2_api "t0") :=
  c2_unknown_action_error c2_api "t0" c2_req (by decide)

/-! ### Claim C10 -/

/-- C10: a supported action always ends `completed` with the error slot
empty — local failures that do not raise come back as payloads — and in
particular a non-200 `get_state` response embeds the
`Entity not found` description inside the `completed` response. -/
theorem c10_local_failure_completed (api : LocalApi) (now : String)
    (req : TunnelRequest) (h : req.action ∈ supportedActions) :
    (handle_request api now req).status = "completed" ∧
    (handle_request api now req).errMsg = none ∧
    (req.action = some "get_state" →
      ∀ (code : ℕ) (body : JVal),
        api.stateResp (pyStr req.entity_id) = HttpResult.ok code body →
        code ≠ 200 →
        (handle_request api now req).response =
          some (Payload.errPayload
            ("Entity not found: " ++ pyStr req.entity_id))) := by
  have hs : req.action = some "ping" ∨ req.action = some "list_entities" ∨
      req.action = some "get_state" ∨ req.action = some "get_states" ∨
      req.action = some "call_service" := by
    simpa [supportedActions] using h
  refine ⟨?_, ?_, ?_⟩
  · rcases hs with h0 | h0 | h0 | h0 | h0 <;>
      simp [handle_request, h0, update_request]
  · rcases hs with h0 | h0 | h0 | h0 | h0 <;>
      simp [handle_request, h0, update_request]
  · intro hg code body hresp hcode
    simp [handle_request, hg, update_request, get_state, hresp, hcode]

/-- A local API snapshot whose `GET /states/{id}` always answers 404. -/
def c10_api : LocalApi :=
  ⟨.ok 200 [], fun _ => .ok 404 .null, fun _ _ _ => .ok 200 .null⟩

/-- A `get_state` request for a missing entity. -/
def c10_req : TunnelRequest :=
  ⟨"r2", some "get_state", some "sensor.missing", none, none, none, none⟩

/-- C10 witness: `get_state` on a missing entity is written `completed`
with the failure description in the response payload. -/
theorem c10_local_failure_completed_witness :
    (handle_request c10_api "t0" c10_req).status = "completed" ∧
    (handle_request c10_api "t0" c10_req).errMsg = none ∧
    (handle_request c10_api "t0" c10_req).response =
      some (Payload.errPayload
        ("Entity not found: " ++ pyStr c10_req.entity_id)) := by
  have h := c10_local_failure_completed c10_api "t0" c10_req
    (by simp [supportedActions, c10_req])
  exact ⟨h.1, h.2.1, h.2.2 rfl 404 .null rfl (by decide)⟩

/-! ### Claim C7 -/

/-- C7 counterexample: a received message that is not valid JSON is NOT
ignored — the generic `except` clears `self.ws` and the session drops
the connection instead of staying connected awaiting the next
command. -/
theorem c7_counterexample :
    awaitCommandStep (.gotMsg .notJson) = (false, .dropConnection) ∧
    awaitCommandStep (.gotMsg .notJson) ≠ (true, .keepAwaiting) := by
  decide

/-- C7 (amended): a valid JSON object message whose type is not
`start_stream` is ignored and the session keeps awaiting on the live
connection; but a message that is not valid JSON raises in
`json.loads`, so the connection handle is cleared and the session goes
through the reconnect delay. -/
theorem c7_non_start_ignored (t : Option String)
    (h : t ≠ some "start_stream") :
    awaitCommandStep (.gotMsg (.objMsg t)) = (true, .keepAwaiting) ∧
    awaitCommandStep (.gotMsg .notJson) = (false, .dropConnection) := by
  constructor
  · simp [awaitCommandStep, h]
  · rfl

/-- C7 witness: a `keepalive`-typed JSON object is ignored; a non-JSON
message drops the connection. -/
theorem c7_non_start_ignored_witness :
    awaitCommandStep (.gotMsg (.objMsg (some "keepalive"))) =
      (true, .keepAwaiting) ∧
    awaitCommandStep (.gotMsg .notJson) = (false, .dropConnection) :=
  c7_non_start_ignored (some "keepalive") (by decide)

end MinHustomte
